import Mathlib

/-
  Verification of the PALMS movement controller
  (src/src/server/movement_controller.py).

  The controller compares each of five axes' current position with a target
  position and emits step/direction pulses on GPIO pins, one quantized step
  per axis per loop iteration.  Positions are embedded as exact rationals;
  GPIO writes and dwell delays are recorded as an event trace.
-/

namespace PALMS

/-- Lead screw pitch / steps per rev (`STEP_INCREMENT = 5.08 / 400`). -/
def STEP_INCREMENT : ℚ := 5.08 / 400

/-- Clockwise rotation level (`CW = 1`). -/
def CW : Nat := 1

/-- Counterclockwise rotation level (`CCW = 0`). -/
def CCW : Nat := 0

def STEP_X : Nat := 11
def DIR_X : Nat := 13
def STEP_Y : Nat := 10
def DIR_Y : Nat := 12
def STEP_Z : Nat := 38
def DIR_Z : Nat := 40
def STEP_A : Nat := 21
def DIR_A : Nat := 22
def STEP_B : Nat := 3
def DIR_B : Nat := 5

/-- Sleep GPIO pin (`SLEEP = 15`). -/
def SLEEP : Nat := 15

/-- Logical level of RPi.GPIO HIGH. -/
def GPIO_HIGH : Nat := 1

/-- Logical level of RPi.GPIO LOW. -/
def GPIO_LOW : Nat := 0

/-- Direction level asserted by `Axis._step_increase` (comment in the source:
increase steps the motor counterclockwise). -/
def INCREASE_DIRECTION : Nat := CCW

/-- Direction level asserted by `Axis._step_decrease` (comment in the source:
decrease steps the motor clockwise). -/
def DECREASE_DIRECTION : Nat := CW

/-- The dwell interval, in seconds (`time.sleep(0.00075)`). -/
def DWELL : ℚ := 0.00075

/-- A quantized axis position (`class Position`). The single attribute `pos`
starts at 0.0; it is embedded as an exact rational. -/
structure Position where
  pos : ℚ
deriving DecidableEq

/-- `Position.increment`: `self.pos += STEP_INCREMENT`. -/
def Position.increment (p : Position) : Position :=
  ⟨p.pos + STEP_INCREMENT⟩

/-- `Position.decrement`: `self.pos -= STEP_INCREMENT`. -/
def Position.decrement (p : Position) : Position :=
  ⟨p.pos - STEP_INCREMENT⟩

/-- The type-matching branch of `Position.__eq__`: deadzone comparison,
`abs(self.pos - other.pos) <= STEP_INCREMENT / 2`. -/
def Position.beq (self other : Position) : Bool :=
  decide (|self.pos - other.pos| ≤ STEP_INCREMENT / 2)

/-- The type-matching branch of `Position.__lt__`: false when `self == other`,
else `self.pos < other.pos`. -/
def Position.blt (self other : Position) : Bool :=
  if Position.beq self other then false
  else decide (self.pos < other.pos)

/-- `Position.__gt__` as synthesized by `functools.total_ordering` from
`__lt__` and `__eq__`: `not (self < other) and not (self == other)`. -/
def Position.bgt (self other : Position) : Bool :=
  !(Position.blt self other) && !(Position.beq self other)

/-- A dynamically typed Python value, as far as the comparison methods of
`Position` can observe it: either a `Position` instance or a value of some
other type. -/
inductive PyVal where
  | position (p : Position)
  | num (q : ℚ)
  | str (s : String)
  | none
deriving DecidableEq

/-- `Position.__eq__` on a dynamically typed argument: the `type(self) is
type(other)` check passes only for a `Position`, otherwise a `TypeError`
is raised. -/
def Position.eqPy (self : Position) (other : PyVal) : Except String Bool :=
  match other with
  | PyVal.position q => Except.ok (Position.beq self q)
  | _ => Except.error "You can only compare a Position with another Position"

/-- `Position.__lt__` on a dynamically typed argument. -/
def Position.ltPy (self : Position) (other : PyVal) : Except String Bool :=
  match other with
  | PyVal.position q => Except.ok (Position.blt self q)
  | _ => Except.error "You can only compare a Position with another Position"

/-- One GPIO write (`GPIO.output(pin, level)`) or one dwell delay
(`time.sleep(seconds)`). -/
inductive Event where
  | gpio (pin : Nat) (level : Nat)
  | delay (seconds : ℚ)
deriving DecidableEq

/-- One controlled axis (`class Axis`): step pin, direction pin, name, and
the two owned positions, both constructed at `Position()` (0.0). -/
structure Axis where
  step_pin : Nat
  dir_pin : Nat
  name : String
  current_position : Position
  target_position : Position
deriving DecidableEq

/-- `Axis.__init__(step_pin, dir_pin, name)`. -/
def Axis.init (step_pin dir_pin : Nat) (name : String) : Axis :=
  ⟨step_pin, dir_pin, name, ⟨0⟩, ⟨0⟩⟩

/-- `Axis.is_in_position`: `self._current_position == self._target_position`. -/
def Axis.is_in_position (a : Axis) : Bool :=
  Position.beq a.current_position a.target_position

/-- `Axis._step_increase`: direction pin to CCW, then step pin to HIGH. -/
def Axis.step_increase (a : Axis) : List Event :=
  [Event.gpio a.dir_pin CCW, Event.gpio a.step_pin GPIO_HIGH]

/-- `Axis._step_decrease`: direction pin to CW, then step pin to HIGH. -/
def Axis.step_decrease (a : Axis) : List Event :=
  [Event.gpio a.dir_pin CW, Event.gpio a.step_pin GPIO_HIGH]

/-- `Axis.move`: one step toward the target.  Returns the updated axis and
the ordered GPIO writes it performed. -/
def Axis.move (a : Axis) : Axis × List Event :=
  if Position.blt a.current_position a.target_position then
    ({ a with current_position := a.current_position.increment }, a.step_increase)
  else if Position.bgt a.current_position a.target_position then
    ({ a with current_position := a.current_position.decrement }, a.step_decrease)
  else
    (a, [])

/-- `Axis.pulse_low`: step pin to LOW, unconditionally. -/
def Axis.pulse_low (a : Axis) : List Event :=
  [Event.gpio a.step_pin GPIO_LOW]

/-- The `current_position` property setter (`axis.current_position = val`). -/
def Axis.set_current (a : Axis) (v : ℚ) : Axis :=
  { a with current_position := ⟨v⟩ }

/-- The `target_position` property setter (`axis.target_position = val`). -/
def Axis.set_target (a : Axis) (v : ℚ) : Axis :=
  { a with target_position := ⟨v⟩ }

/-- Modelled from the spec: the shared command source module `data` is not
under src/; per the external-interface section it holds one target value per
axis name (x, y, z, a, b) and a one-shot boolean `zero_cmd`, written by an
external actor and read (and, for `zero_cmd`, cleared) by the loop. -/
structure CommandData where
  target_x : ℚ
  target_y : ℚ
  target_z : ℚ
  target_a : ℚ
  target_b : ℚ
  zero_cmd : Bool
deriving DecidableEq

/-- The state touched by one iteration of `run`: the five axes and the
shared command data. -/
structure ControllerState where
  x_axis : Axis
  y_axis : Axis
  z_axis : Axis
  a_axis : Axis
  b_axis : Axis
  data : CommandData
deriving DecidableEq

/-- The body of the zeroing loop in `zero_if_cmd`:
`axis.current_position = 0.0; axis.target_position = 0.0`. -/
def zeroAxis (a : Axis) : Axis :=
  (a.set_current 0).set_target 0

/-- `zero_if_cmd(x, y, z, a, b)`: if `data.zero_cmd` is set, zero every
axis's current and target position and then clear the flag. -/
def zero_if_cmd (s : ControllerState) : ControllerState :=
  if s.data.zero_cmd then
    { x_axis := zeroAxis s.x_axis
      y_axis := zeroAxis s.y_axis
      z_axis := zeroAxis s.z_axis
      a_axis := zeroAxis s.a_axis
      b_axis := zeroAxis s.b_axis
      data := { s.data with zero_cmd := false } }
  else
    s

/-- The command-ingestion portion of one `run` loop iteration:
`zero_if_cmd(...)` followed by the five `axis.target_position =
data.targets[name]` assignments. -/
def ingest (s : ControllerState) : ControllerState :=
  let s1 := zero_if_cmd s
  { s1 with
    x_axis := s1.x_axis.set_target s1.data.target_x
    y_axis := s1.y_axis.set_target s1.data.target_y
    z_axis := s1.z_axis.set_target s1.data.target_z
    a_axis := s1.a_axis.set_target s1.data.target_a
    b_axis := s1.b_axis.set_target s1.data.target_b }

/-- `is_in_position(*axes)`: conjunction of `axis.is_in_position()` over the
five axes passed in `run`. -/
def is_in_position (s : ControllerState) : Bool :=
  s.x_axis.is_in_position && s.y_axis.is_in_position && s.z_axis.is_in_position
    && s.a_axis.is_in_position && s.b_axis.is_in_position

/-- `wake_up()`: `GPIO.output(SLEEP, GPIO.HIGH)`. -/
def wake_up : List Event :=
  [Event.gpio SLEEP GPIO_HIGH]

/-- `sleep()`: `GPIO.output(SLEEP, GPIO.LOW)`. -/
def sleepSignal : List Event :=
  [Event.gpio SLEEP GPIO_LOW]

/-- One iteration of the `while True` loop in `run`: ingest commands; if not
all axes are in position, wake, move each axis in order, dwell, pulse every
axis low, dwell; otherwise assert sleep.  Returns the new state and the
event trace of the iteration, in program order. -/
def loopIter (s : ControllerState) : ControllerState × List Event :=
  let s1 := ingest s
  if !(is_in_position s1) then
    let mx := s1.x_axis.move
    let my := s1.y_axis.move
    let mz := s1.z_axis.move
    let ma := s1.a_axis.move
    let mb := s1.b_axis.move
    ({ s1 with x_axis := mx.1, y_axis := my.1, z_axis := mz.1,
               a_axis := ma.1, b_axis := mb.1 },
     wake_up ++ mx.2 ++ my.2 ++ mz.2 ++ ma.2 ++ mb.2
       ++ [Event.delay DWELL]
       ++ mx.1.pulse_low ++ my.1.pulse_low ++ mz.1.pulse_low
       ++ ma.1.pulse_low ++ mb.1.pulse_low
       ++ [Event.delay DWELL])
  else
    (s1, sleepSignal)

/-- The five step pins of a controller state, in axis order. -/
def stepPins (s : ControllerState) : List Nat :=
  [s.x_axis.step_pin, s.y_axis.step_pin, s.z_axis.step_pin,
   s.a_axis.step_pin, s.b_axis.step_pin]

/-- The five direction pins of a controller state, in axis order. -/
def dirPins (s : ControllerState) : List Nat :=
  [s.x_axis.dir_pin, s.y_axis.dir_pin, s.z_axis.dir_pin,
   s.a_axis.dir_pin, s.b_axis.dir_pin]

/-- The pin assignment `run` makes when it constructs the five axes. -/
def runPins (s : ControllerState) : Prop :=
  stepPins s = [STEP_X, STEP_Y, STEP_Z, STEP_A, STEP_B] ∧
  dirPins s = [DIR_X, DIR_Y, DIR_Z, DIR_A, DIR_B]

/-- A concrete axis strictly below its target. -/
def axisBelow : Axis := ⟨11, 13, "x", ⟨0⟩, ⟨1⟩⟩

/-- A concrete axis strictly above its target. -/
def axisAbove : Axis := ⟨11, 13, "x", ⟨1⟩, ⟨0⟩⟩

/-- A concrete axis at its target. -/
def axisAt : Axis := ⟨11, 13, "x", ⟨0⟩, ⟨0⟩⟩

/-- The tail of the event trace of a moving iteration: the per-axis move
writes, the first dwell, the five pulse-lows, the second dwell. -/
def moveTraceTail (s : ControllerState) : List Event :=
  ((ingest s).x_axis.move).2 ++ ((ingest s).y_axis.move).2 ++ ((ingest s).z_axis.move).2
    ++ ((ingest s).a_axis.move).2 ++ ((ingest s).b_axis.move).2
    ++ [Event.delay DWELL]
    ++ (((ingest s).x_axis.move).1).pulse_low ++ (((ingest s).y_axis.move).1).pulse_low
    ++ (((ingest s).z_axis.move).1).pulse_low ++ (((ingest s).a_axis.move).1).pulse_low
    ++ (((ingest s).b_axis.move).1).pulse_low
    ++ [Event.delay DWELL]

/-- A state with the zero flag set, every current and target position at 1,
and a non-zero command-source target for the x axis. -/
def zeroCmdCounterState : ControllerState :=
  { x_axis := ⟨STEP_X, DIR_X, "x", ⟨1⟩, ⟨1⟩⟩
    y_axis := ⟨STEP_Y, DIR_Y, "y", ⟨1⟩, ⟨1⟩⟩
    z_axis := ⟨STEP_Z, DIR_Z, "z", ⟨1⟩, ⟨1⟩⟩
    a_axis := ⟨STEP_A, DIR_A, "a", ⟨1⟩, ⟨1⟩⟩
    b_axis := ⟨STEP_B, DIR_B, "b", ⟨1⟩, ⟨1⟩⟩
    data := ⟨1, 1, 1, 1, 1, true⟩ }

/-- Like `zeroCmdCounterState` but with all command-source targets zero. -/
def zeroCmdWitnessState : ControllerState :=
  { x_axis := ⟨STEP_X, DIR_X, "x", ⟨1⟩, ⟨1⟩⟩
    y_axis := ⟨STEP_Y, DIR_Y, "y", ⟨1⟩, ⟨1⟩⟩
    z_axis := ⟨STEP_Z, DIR_Z, "z", ⟨1⟩, ⟨1⟩⟩
    a_axis := ⟨STEP_A, DIR_A, "a", ⟨1⟩, ⟨1⟩⟩
    b_axis := ⟨STEP_B, DIR_B, "b", ⟨1⟩, ⟨1⟩⟩
    data := ⟨0, 0, 0, 0, 0, true⟩ }

/-- A state with the run pin assignment in which, after ingestion, the
x axis is out of position (its command-source target is 1). -/
def moveCycleState : ControllerState :=
  { x_axis := ⟨STEP_X, DIR_X, "x", ⟨0⟩, ⟨0⟩⟩
    y_axis := ⟨STEP_Y, DIR_Y, "y", ⟨0⟩, ⟨0⟩⟩
    z_axis := ⟨STEP_Z, DIR_Z, "z", ⟨0⟩, ⟨0⟩⟩
    a_axis := ⟨STEP_A, DIR_A, "a", ⟨0⟩, ⟨0⟩⟩
    b_axis := ⟨STEP_B, DIR_B, "b", ⟨0⟩, ⟨0⟩⟩
    data := ⟨1, 0, 0, 0, 0, false⟩ }

/-- A state with the run pin assignment in which every axis is in position
after ingestion: all positions and all command-source targets are zero. -/
def idleCycleState : ControllerState :=
  { x_axis := ⟨STEP_X, DIR_X, "x", ⟨0⟩, ⟨0⟩⟩
    y_axis := ⟨STEP_Y, DIR_Y, "y", ⟨0⟩, ⟨0⟩⟩
    z_axis := ⟨STEP_Z, DIR_Z, "z", ⟨0⟩, ⟨0⟩⟩
    a_axis := ⟨STEP_A, DIR_A, "a", ⟨0⟩, ⟨0⟩⟩
    b_axis := ⟨STEP_B, DIR_B, "b", ⟨0⟩, ⟨0⟩⟩
    data := ⟨0, 0, 0, 0, 0, false⟩ }

lemma step_increment_pos : (0 : ℚ) < STEP_INCREMENT := by
  norm_num [STEP_INCREMENT]

lemma beq_iff (p q : Position) :
    Position.beq p q = true ↔ |p.pos - q.pos| ≤ STEP_INCREMENT / 2 := by
  simp [Position.beq]

lemma blt_gap (p q : Position) :
    Position.blt p q = true ↔ STEP_INCREMENT / 2 < q.pos - p.pos := by
  have hS : (0 : ℚ) < STEP_INCREMENT := step_increment_pos
  constructor
  · intro h
    by_cases hb : |p.pos - q.pos| ≤ STEP_INCREMENT / 2
    · simp [Position.blt, Position.beq, hb] at h
    · simp only [Position.blt, Position.beq, hb, decide_eq_true_eq] at h
      rw [if_neg (by simp [hb])] at h
      have hlt : p.pos < q.pos := by simpa using h
      have habs : |p.pos - q.pos| = q.pos - p.pos := by
        rw [abs_sub_comm, abs_of_nonneg (by linarith)]
      have := not_le.mp hb
      linarith [habs ▸ this]
  · intro h
    have h1 : p.pos < q.pos := by linarith
    have h2 : ¬ |p.pos - q.pos| ≤ STEP_INCREMENT / 2 := by
      rw [abs_sub_comm, abs_of_pos (by linarith : (0:ℚ) < q.pos - p.pos)]
      linarith
    simp [Position.blt, Position.beq, h2, h1]

lemma blt_false (p q : Position) :
    Position.blt p q = false ↔ q.pos - p.pos ≤ STEP_INCREMENT / 2 := by
  rw [← Bool.not_eq_true, blt_gap, not_lt]

lemma bgt_gap (p q : Position) :
    Position.bgt p q = true ↔ STEP_INCREMENT / 2 < p.pos - q.pos := by
  have hS : (0 : ℚ) < STEP_INCREMENT := step_increment_pos
  simp only [Position.bgt, Bool.and_eq_true, Bool.not_eq_true']
  rw [blt_false]
  constructor
  · rintro ⟨h1, h2⟩
    rw [← Bool.not_eq_true, beq_iff] at h2
    rcases lt_or_le p.pos q.pos with hlt | hle
    · exfalso
      apply h2
      rw [abs_sub_comm, abs_of_nonneg (by linarith)]
      linarith
    · have habs : |p.pos - q.pos| = p.pos - q.pos := abs_of_nonneg (by linarith)
      rw [habs] at h2
      push_neg at h2
      exact h2
  · intro h
    refine ⟨by linarith, ?_⟩
    rw [← Bool.not_eq_true, beq_iff, abs_of_nonneg (by linarith : (0:ℚ) ≤ p.pos - q.pos)]
    push_neg
    exact h

lemma beq_of_not_moving (p q : Position)
    (h1 : Position.blt p q = false) (h2 : Position.bgt p q = false) :
    Position.beq p q = true := by
  rcases hb : Position.beq p q with _ | _
  · exfalso
    simp only [Position.bgt, h1, hb, Bool.not_false, Bool.and_self] at h2
    exact Bool.noConfusion h2
  · rfl

lemma blt_false_of_bgt {p q : Position} (h : Position.bgt p q = true) :
    Position.blt p q = false := by
  simp only [Position.bgt, Bool.and_eq_true, Bool.not_eq_true'] at h
  exact h.1

lemma blt_false_of_beq {p q : Position} (h : Position.beq p q = true) :
    Position.blt p q = false := by
  simp [Position.blt, h]

lemma bgt_false_of_beq {p q : Position} (h : Position.beq p q = true) :
    Position.bgt p q = false := by
  simp [Position.bgt, h]

/-- C3: the tolerant equality of two `Position`s holds exactly when their
values differ by at most half a step, with `STEP_INCREMENT = 5.08 / 400`. -/
theorem C3_equals_iff_deadzone (p q : Position) :
    Position.beq p q = true ↔ |p.pos - q.pos| ≤ (5.08 / 400 : ℚ) / 2 := by
  rw [beq_iff]
  norm_num [STEP_INCREMENT]

/-- C4: for any two `Position`s exactly one of tolerant equality,
tolerant less-than, and tolerant greater-than holds. -/
theorem C4_trichotomy (p q : Position) :
    (Position.beq p q = true ∧ Position.blt p q = false ∧ Position.blt q p = false) ∨
    (Position.beq p q = false ∧ Position.blt p q = true ∧ Position.blt q p = false) ∨
    (Position.beq p q = false ∧ Position.blt p q = false ∧ Position.blt q p = true) := by
  have hS : (0 : ℚ) < STEP_INCREMENT := step_increment_pos
  rcases le_or_lt (|p.pos - q.pos|) (STEP_INCREMENT / 2) with h | h
  · left
    have h1 := abs_le.mp h
    exact ⟨(beq_iff p q).mpr h, (blt_false p q).mpr (by linarith [h1.1, h1.2]),
      (blt_false q p).mpr (by linarith [h1.1, h1.2])⟩
  · have hne : Position.beq p q = false := by
      rw [← Bool.not_eq_true, beq_iff]
      push_neg
      exact h
    rcases lt_or_le p.pos q.pos with hlt | hle
    · right; left
      have habs : |p.pos - q.pos| = q.pos - p.pos := by
        rw [abs_sub_comm]
        exact abs_of_nonneg (by linarith)
      rw [habs] at h
      exact ⟨hne, (blt_gap p q).mpr h, (blt_false q p).mpr (by linarith)⟩
    · right; right
      have habs : |p.pos - q.pos| = p.pos - q.pos := abs_of_nonneg (by linarith)
      rw [habs] at h
      exact ⟨hne, (blt_false p q).mpr (by linarith), (blt_gap q p).mpr h⟩

/-- C10: the deadzone equality is not transitive: positions 0,
`STEP_INCREMENT / 2` and `STEP_INCREMENT` give `p == q` and `q == r`
but not `p == r`. -/
theorem C10_deadzone_not_transitive :
    ∃ p q r : Position, Position.beq p q = true ∧ Position.beq q r = true ∧
      Position.beq p r = false := by
  have hS : (0 : ℚ) < STEP_INCREMENT := step_increment_pos
  refine ⟨⟨0⟩, ⟨STEP_INCREMENT / 2⟩, ⟨STEP_INCREMENT⟩, ?_, ?_, ?_⟩
  · rw [beq_iff]
    show |(0 : ℚ) - STEP_INCREMENT / 2| ≤ STEP_INCREMENT / 2
    rw [zero_sub, abs_neg, abs_of_nonneg (by linarith)]
  · rw [beq_iff]
    show |STEP_INCREMENT / 2 - STEP_INCREMENT| ≤ STEP_INCREMENT / 2
    have he : STEP_INCREMENT / 2 - STEP_INCREMENT = -(STEP_INCREMENT / 2) := by ring
    rw [he, abs_neg, abs_of_nonneg (by linarith)]
  · rw [← Bool.not_eq_true, beq_iff]
    push_neg
    show STEP_INCREMENT / 2 < |(0 : ℚ) - STEP_INCREMENT|
    rw [zero_sub, abs_neg, abs_of_nonneg (by linarith)]
    linarith

/-- C8: comparing a `Position` against a value of any other type raises a
`TypeError` in both `__eq__` and `__lt__`, rather than returning a boolean. -/
theorem C8_type_mismatch (p : Position) (v : PyVal)
    (hv : ∀ q, v ≠ PyVal.position q) :
    (∃ m, Position.eqPy p v = Except.error m) ∧
    (∃ m, Position.ltPy p v = Except.error m) := by
  cases v with
  | position q => exact absurd rfl (hv q)
  | num _ => exact ⟨⟨_, rfl⟩, ⟨_, rfl⟩⟩
  | str s => exact ⟨⟨_, rfl⟩, ⟨_, rfl⟩⟩
  | none => exact ⟨⟨_, rfl⟩, ⟨_, rfl⟩⟩

theorem C8_type_mismatch_witness :
    (∃ m, Position.eqPy ⟨0⟩ (PyVal.str "abc") = Except.error m) ∧
    (∃ m, Position.ltPy ⟨0⟩ (PyVal.str "abc") = Except.error m) :=
  C8_type_mismatch ⟨0⟩ (PyVal.str "abc") (fun _ h => PyVal.noConfusion h)

lemma move_fst_target (a : Axis) :
    (a.move).1.target_position = a.target_position := by
  simp only [Axis.move]
  split
  · rfl
  · split <;> rfl

lemma move_fst_step_pin (a : Axis) : (a.move).1.step_pin = a.step_pin := by
  simp only [Axis.move]
  split
  · rfl
  · split <;> rfl

lemma move_fst_dir_pin (a : Axis) : (a.move).1.dir_pin = a.dir_pin := by
  simp only [Axis.move]
  split
  · rfl
  · split <;> rfl

lemma move_fst_name (a : Axis) : (a.move).1.name = a.name := by
  simp only [Axis.move]
  split
  · rfl
  · split <;> rfl

/-- C9: `Axis.move` never changes the target position (nor the pins or the
name); only the current position and the output signals change. -/
theorem C9_move_frame (a : Axis) :
    (a.move).1.target_position = a.target_position ∧
    (a.move).1.step_pin = a.step_pin ∧
    (a.move).1.dir_pin = a.dir_pin ∧
    (a.move).1.name = a.name :=
  ⟨move_fst_target a, move_fst_step_pin a, move_fst_dir_pin a, move_fst_name a⟩

/-- C2: `Axis.move` is a single-step transition: strictly-below-target
asserts the increase direction then step HIGH and adds one step increment;
strictly-above-target asserts the decrease direction then step HIGH and
subtracts one step increment; tolerant equality changes nothing.  In the
returned trace the direction write precedes the step-HIGH write. -/
theorem C2_move_single_step (a : Axis) :
    (Position.blt a.current_position a.target_position = true →
        a.move = ({ a with current_position := ⟨a.current_position.pos + STEP_INCREMENT⟩ },
          [Event.gpio a.dir_pin INCREASE_DIRECTION, Event.gpio a.step_pin GPIO_HIGH])) ∧
    (Position.bgt a.current_position a.target_position = true →
        a.move = ({ a with current_position := ⟨a.current_position.pos - STEP_INCREMENT⟩ },
          [Event.gpio a.dir_pin DECREASE_DIRECTION, Event.gpio a.step_pin GPIO_HIGH])) ∧
    (Position.beq a.current_position a.target_position = true →
        a.move = (a, [])) := by
  refine ⟨fun h => ?_, fun h => ?_, fun h => ?_⟩
  · simp [Axis.move, h, Axis.step_increase, Position.increment, INCREASE_DIRECTION]
  · have h1 := blt_false_of_bgt h
    simp [Axis.move, h1, h, Axis.step_decrease, Position.decrement, DECREASE_DIRECTION]
  · have h1 := blt_false_of_beq h
    have h2 := bgt_false_of_beq h
    simp [Axis.move, h1, h2]

theorem C2_move_single_step_witness :
    Axis.move axisBelow =
      ({ axisBelow with current_position := ⟨axisBelow.current_position.pos + STEP_INCREMENT⟩ },
        [Event.gpio axisBelow.dir_pin INCREASE_DIRECTION, Event.gpio axisBelow.step_pin GPIO_HIGH]) ∧
    Axis.move axisAbove =
      ({ axisAbove with current_position := ⟨axisAbove.current_position.pos - STEP_INCREMENT⟩ },
        [Event.gpio axisAbove.dir_pin DECREASE_DIRECTION, Event.gpio axisAbove.step_pin GPIO_HIGH]) ∧
    Axis.move axisAt = (axisAt, []) :=
  ⟨(C2_move_single_step axisBelow).1 (by
      rw [blt_gap]
      norm_num [axisBelow, STEP_INCREMENT]),
   (C2_move_single_step axisAbove).2.1 (by
      rw [bgt_gap]
      norm_num [axisAbove, STEP_INCREMENT]),
   (C2_move_single_step axisAt).2.2 (by
      rw [beq_iff]
      norm_num [axisAt, STEP_INCREMENT])⟩

lemma move_fst_current (a : Axis) :
    (a.move).1.current_position.pos =
      if Position.blt a.current_position a.target_position then
        a.current_position.pos + STEP_INCREMENT
      else if Position.bgt a.current_position a.target_position then
        a.current_position.pos - STEP_INCREMENT
      else a.current_position.pos := by
  simp only [Axis.move]
  split
  · simp [Position.increment]
  · split <;> simp [Position.decrement]

lemma converge_aux :
    ∀ (n : ℕ) (a : Axis),
      |a.target_position.pos - a.current_position.pos| ≤
        (n : ℚ) * STEP_INCREMENT + STEP_INCREMENT / 2 →
      Axis.is_in_position ((fun ax => (Axis.move ax).1)^[n] a) = true := by
  intro n
  induction n with
  | zero =>
    intro a h
    rw [Function.iterate_zero_apply]
    rw [Axis.is_in_position, beq_iff, abs_sub_comm]
    simpa using h
  | succ n ih =>
    intro a h
    have hS : (0 : ℚ) < STEP_INCREMENT := step_increment_pos
    have hn : (0 : ℚ) ≤ (n : ℚ) := Nat.cast_nonneg n
    have hcast : ((n + 1 : ℕ) : ℚ) = (n : ℚ) + 1 := by push_cast; ring
    rw [hcast] at h
    have hb := abs_le.mp h
    rw [Function.iterate_succ_apply]
    apply ih
    rw [move_fst_target, move_fst_current]
    have hnS : (0 : ℚ) ≤ (n : ℚ) * STEP_INCREMENT := mul_nonneg hn hS.le
    by_cases h1 : Position.blt a.current_position a.target_position = true
    · rw [if_pos h1]
      have hg := (blt_gap _ _).mp h1
      rw [abs_le]
      exact ⟨by linarith [hb.1], by linarith [hb.2]⟩
    · rw [if_neg h1]
      by_cases h2 : Position.bgt a.current_position a.target_position = true
      · rw [if_pos h2]
        have hg := (bgt_gap _ _).mp h2
        rw [abs_le]
        exact ⟨by linarith [hb.1], by linarith [hb.2]⟩
      · rw [if_neg h2]
        have h1f : Position.blt a.current_position a.target_position = false := by
          simpa using h1
        have h2f : Position.bgt a.current_position a.target_position = false := by
          simpa using h2
        have hq := beq_of_not_moving _ _ h1f h2f
        rw [beq_iff] at hq
        rw [abs_sub_comm]
        linarith

/-- C5: iterating `Axis.move` against a fixed target reaches
`is_in_position` within `ceil(gap / STEP_INCREMENT)` calls, where `gap` is
the initial distance between target and current position. -/
theorem C5_convergence (a : Axis) :
    Axis.is_in_position
      ((fun ax => (Axis.move ax).1)^[
        (⌈|a.target_position.pos - a.current_position.pos| / STEP_INCREMENT⌉).toNat] a)
      = true := by
  apply converge_aux
  have hS : (0 : ℚ) < STEP_INCREMENT := step_increment_pos
  set d : ℚ := |a.target_position.pos - a.current_position.pos| with hd
  have hd0 : (0 : ℚ) ≤ d := abs_nonneg _
  have hN0 : (0 : ℤ) ≤ ⌈d / STEP_INCREMENT⌉ := Int.ceil_nonneg (by positivity)
  have h1 : d / STEP_INCREMENT ≤ ((⌈d / STEP_INCREMENT⌉ : ℤ) : ℚ) := Int.le_ceil _
  have h2 : (((⌈d / STEP_INCREMENT⌉).toNat : ℕ) : ℚ) = ((⌈d / STEP_INCREMENT⌉ : ℤ) : ℚ) := by
    exact_mod_cast Int.toNat_of_nonneg hN0
  rw [h2]
  rw [div_le_iff₀ hS] at h1
  linarith

lemma set_target_step_pin (a : Axis) (v : ℚ) : (a.set_target v).step_pin = a.step_pin := rfl

lemma set_target_dir_pin (a : Axis) (v : ℚ) : (a.set_target v).dir_pin = a.dir_pin := rfl

lemma set_target_current (a : Axis) (v : ℚ) :
    (a.set_target v).current_position = a.current_position := rfl

lemma set_target_target (a : Axis) (v : ℚ) : (a.set_target v).target_position = ⟨v⟩ := rfl

lemma zero_if_cmd_x_step_pin (s : ControllerState) :
    (zero_if_cmd s).x_axis.step_pin = s.x_axis.step_pin := by
  simp only [zero_if_cmd]
  split <;> rfl

lemma zero_if_cmd_y_step_pin (s : ControllerState) :
    (zero_if_cmd s).y_axis.step_pin = s.y_axis.step_pin := by
  simp only [zero_if_cmd]
  split <;> rfl

lemma zero_if_cmd_z_step_pin (s : ControllerState) :
    (zero_if_cmd s).z_axis.step_pin = s.z_axis.step_pin := by
  simp only [zero_if_cmd]
  split <;> rfl

lemma zero_if_cmd_a_step_pin (s : ControllerState) :
    (zero_if_cmd s).a_axis.step_pin = s.a_axis.step_pin := by
  simp only [zero_if_cmd]
  split <;> rfl

lemma zero_if_cmd_b_step_pin (s : ControllerState) :
    (zero_if_cmd s).b_axis.step_pin = s.b_axis.step_pin := by
  simp only [zero_if_cmd]
  split <;> rfl

lemma ingest_x_step_pin (s : ControllerState) :
    (ingest s).x_axis.step_pin = s.x_axis.step_pin := by
  simp [ingest, set_target_step_pin, zero_if_cmd_x_step_pin]

lemma ingest_y_step_pin (s : ControllerState) :
    (ingest s).y_axis.step_pin = s.y_axis.step_pin := by
  simp [ingest, set_target_step_pin, zero_if_cmd_y_step_pin]

lemma ingest_z_step_pin (s : ControllerState) :
    (ingest s).z_axis.step_pin = s.z_axis.step_pin := by
  simp [ingest, set_target_step_pin, zero_if_cmd_z_step_pin]

lemma ingest_a_step_pin (s : ControllerState) :
    (ingest s).a_axis.step_pin = s.a_axis.step_pin := by
  simp [ingest, set_target_step_pin, zero_if_cmd_a_step_pin]

lemma ingest_b_step_pin (s : ControllerState) :
    (ingest s).b_axis.step_pin = s.b_axis.step_pin := by
  simp [ingest, set_target_step_pin, zero_if_cmd_b_step_pin]

lemma loopIter_trace_move (s : ControllerState) (h : is_in_position (ingest s) = false) :
    (loopIter s).2 = Event.gpio SLEEP GPIO_HIGH :: moveTraceTail s := by
  simp [loopIter, h, wake_up, moveTraceTail]

lemma loopIter_trace_idle (s : ControllerState) (h : is_in_position (ingest s) = true) :
    (loopIter s).2 = [Event.gpio SLEEP GPIO_LOW] := by
  simp [loopIter, h, sleepSignal]

lemma beq_false_of_gap {p q : Position}
    (h : STEP_INCREMENT / 2 < |p.pos - q.pos|) : Position.beq p q = false := by
  rw [← Bool.not_eq_true, beq_iff]
  push_neg
  exact h

/-- C6: in a moving iteration (some axis out of position after ingestion),
every step-HIGH write is preceded by the wake write on the sleep pin, and
every one of the five axes receives its pulse-low write. -/
theorem C6_full_move_cycle (s : ControllerState) (hpins : runPins s)
    (h : is_in_position (ingest s) = false) :
    (∀ (i : ℕ) (p : Nat), p ∈ stepPins s →
        (loopIter s).2[i]? = some (Event.gpio p GPIO_HIGH) →
        ∃ j, j < i ∧ (loopIter s).2[j]? = some (Event.gpio SLEEP GPIO_HIGH)) ∧
    (∀ p ∈ stepPins s, Event.gpio p GPIO_LOW ∈ (loopIter s).2) := by
  constructor
  · intro i p hp hi
    match i with
    | 0 =>
      exfalso
      rw [loopIter_trace_move s h] at hi
      simp only [List.getElem?_cons_zero, Option.some.injEq] at hi
      injection hi with h1 h2
      rw [← h1, hpins.1] at hp
      revert hp
      decide
    | Nat.succ k =>
      refine ⟨0, Nat.succ_pos k, ?_⟩
      rw [loopIter_trace_move s h]
      simp only [List.getElem?_cons_zero]
  · intro p hp
    rw [loopIter_trace_move s h]
    simp only [stepPins, List.mem_cons, List.not_mem_nil, or_false] at hp
    rcases hp with hp | hp | hp | hp | hp <;> subst hp <;>
      simp [moveTraceTail, Axis.pulse_low, move_fst_step_pin, ingest_x_step_pin,
        ingest_y_step_pin, ingest_z_step_pin, ingest_a_step_pin, ingest_b_step_pin]

/-- C7: in an idle iteration (all axes in position after ingestion) the
trace is exactly the sleep-disable write: no step or direction pin is
written and no dwell delay occurs. -/
theorem C7_full_idle_cycle (s : ControllerState) (hpins : runPins s)
    (h : is_in_position (ingest s) = true) :
    (loopIter s).2 = [Event.gpio SLEEP GPIO_LOW] ∧
    (∀ p l, (p ∈ stepPins s ∨ p ∈ dirPins s) → Event.gpio p l ∉ (loopIter s).2) ∧
    (∀ q, Event.delay q ∉ (loopIter s).2) := by
  refine ⟨loopIter_trace_idle s h, ?_, ?_⟩
  · intro p l hmem hin
    rw [loopIter_trace_idle s h] at hin
    simp only [List.mem_singleton] at hin
    injection hin with h1 h2
    subst h1
    rcases hmem with hm | hm
    · rw [hpins.1] at hm
      revert hm
      decide
    · rw [hpins.2] at hm
      revert hm
      decide
  · intro q hin
    rw [loopIter_trace_idle s h] at hin
    simp at hin

/-- C1 (amended): if additionally the command source's five targets read
zero in the cycle, the zero command works as stated. -/
theorem C1_zero_command (s : ControllerState)
    (hc : s.x_axis.current_position.pos ≠ 0 ∧ s.y_axis.current_position.pos ≠ 0 ∧
      s.z_axis.current_position.pos ≠ 0 ∧ s.a_axis.current_position.pos ≠ 0 ∧
      s.b_axis.current_position.pos ≠ 0)
    (ht : s.x_axis.target_position.pos ≠ 0 ∧ s.y_axis.target_position.pos ≠ 0 ∧
      s.z_axis.target_position.pos ≠ 0 ∧ s.a_axis.target_position.pos ≠ 0 ∧
      s.b_axis.target_position.pos ≠ 0)
    (hz : s.data.zero_cmd = true)
    (h0 : s.data.target_x = 0 ∧ s.data.target_y = 0 ∧ s.data.target_z = 0 ∧
      s.data.target_a = 0 ∧ s.data.target_b = 0) :
    ((ingest s).x_axis.current_position.pos = 0 ∧ (ingest s).y_axis.current_position.pos = 0 ∧
      (ingest s).z_axis.current_position.pos = 0 ∧ (ingest s).a_axis.current_position.pos = 0 ∧
      (ingest s).b_axis.current_position.pos = 0) ∧
    ((ingest s).x_axis.target_position.pos = 0 ∧ (ingest s).y_axis.target_position.pos = 0 ∧
      (ingest s).z_axis.target_position.pos = 0 ∧ (ingest s).a_axis.target_position.pos = 0 ∧
      (ingest s).b_axis.target_position.pos = 0) ∧
    (ingest s).data.zero_cmd = false := by
  obtain ⟨h0x, h0y, h0z, h0a, h0b⟩ := h0
  refine ⟨?_, ?_, ?_⟩ <;>
    simp [ingest, zero_if_cmd, hz, zeroAxis, Axis.set_current, Axis.set_target,
      h0x, h0y, h0z, h0a, h0b]

/-- C1 counterexample: in `zeroCmdCounterState` all five axes have non-zero
current and target positions and the zero flag is set, yet after one
ingestion cycle the x axis target reads the command-source value 1, not 0:
the target assignment of the same cycle overwrites the zeroed target. -/
theorem C1_zero_command_counterexample :
    (zeroCmdCounterState.x_axis.current_position.pos ≠ 0 ∧
      zeroCmdCounterState.y_axis.current_position.pos ≠ 0 ∧
      zeroCmdCounterState.z_axis.current_position.pos ≠ 0 ∧
      zeroCmdCounterState.a_axis.current_position.pos ≠ 0 ∧
      zeroCmdCounterState.b_axis.current_position.pos ≠ 0 ∧
      zeroCmdCounterState.x_axis.target_position.pos ≠ 0 ∧
      zeroCmdCounterState.y_axis.target_position.pos ≠ 0 ∧
      zeroCmdCounterState.z_axis.target_position.pos ≠ 0 ∧
      zeroCmdCounterState.a_axis.target_position.pos ≠ 0 ∧
      zeroCmdCounterState.b_axis.target_position.pos ≠ 0 ∧
      zeroCmdCounterState.data.zero_cmd = true) ∧
    (ingest zeroCmdCounterState).x_axis.target_position.pos = 1 ∧
    ¬ (ingest zeroCmdCounterState).x_axis.target_position.pos = 0 := by
  refine ⟨?_, ?_, ?_⟩
  · norm_num [zeroCmdCounterState]
  · norm_num [ingest, zero_if_cmd, zeroCmdCounterState, zeroAxis,
      Axis.set_current, Axis.set_target]
  · norm_num [ingest, zero_if_cmd, zeroCmdCounterState, zeroAxis,
      Axis.set_current, Axis.set_target]

theorem C1_zero_command_witness :
    ((ingest zeroCmdWitnessState).x_axis.current_position.pos = 0 ∧
      (ingest zeroCmdWitnessState).y_axis.current_position.pos = 0 ∧
      (ingest zeroCmdWitnessState).z_axis.current_position.pos = 0 ∧
      (ingest zeroCmdWitnessState).a_axis.current_position.pos = 0 ∧
      (ingest zeroCmdWitnessState).b_axis.current_position.pos = 0) ∧
    ((ingest zeroCmdWitnessState).x_axis.target_position.pos = 0 ∧
      (ingest zeroCmdWitnessState).y_axis.target_position.pos = 0 ∧
      (ingest zeroCmdWitnessState).z_axis.target_position.pos = 0 ∧
      (ingest zeroCmdWitnessState).a_axis.target_position.pos = 0 ∧
      (ingest zeroCmdWitnessState).b_axis.target_position.pos = 0) ∧
    (ingest zeroCmdWitnessState).data.zero_cmd = false :=
  C1_zero_command zeroCmdWitnessState
    (by norm_num [zeroCmdWitnessState])
    (by norm_num [zeroCmdWitnessState])
    (by norm_num [zeroCmdWitnessState])
    (by norm_num [zeroCmdWitnessState])

lemma moveCycleState_not_in_position : is_in_position (ingest moveCycleState) = false := by
  have hx : Position.beq (⟨0⟩ : Position) ⟨1⟩ = false := by
    apply beq_false_of_gap
    show STEP_INCREMENT / 2 < |(0 : ℚ) - 1|
    rw [zero_sub, abs_neg, abs_one]
    norm_num [STEP_INCREMENT]
  simp [is_in_position, ingest, zero_if_cmd, moveCycleState, Axis.is_in_position,
    Axis.set_target, hx]

theorem C6_full_move_cycle_witness :
    (∀ (i : ℕ) (p : Nat), p ∈ stepPins moveCycleState →
        (loopIter moveCycleState).2[i]? = some (Event.gpio p GPIO_HIGH) →
        ∃ j, j < i ∧
          (loopIter moveCycleState).2[j]? = some (Event.gpio SLEEP GPIO_HIGH)) ∧
    (∀ p ∈ stepPins moveCycleState, Event.gpio p GPIO_LOW ∈ (loopIter moveCycleState).2) :=
  C6_full_move_cycle moveCycleState ⟨rfl, rfl⟩ moveCycleState_not_in_position

lemma idleCycleState_in_position : is_in_position (ingest idleCycleState) = true := by
  have h0 : Position.beq (⟨0⟩ : Position) ⟨0⟩ = true := by
    rw [beq_iff]
    show |(0 : ℚ) - 0| ≤ STEP_INCREMENT / 2
    rw [sub_zero, abs_zero]
    norm_num [STEP_INCREMENT]
  simp [is_in_position, ingest, zero_if_cmd, idleCycleState, Axis.is_in_position,
    Axis.set_target, h0]

theorem C7_full_idle_cycle_witness :
    (loopIter idleCycleState).2 = [Event.gpio SLEEP GPIO_LOW] ∧
    (∀ p l, (p ∈ stepPins idleCycleState ∨ p ∈ dirPins idleCycleState) →
      Event.gpio p l ∉ (loopIter idleCycleState).2) ∧
    (∀ q, Event.delay q ∉ (loopIter idleCycleState).2) :=
  C7_full_idle_cycle idleCycleState ⟨rfl, rfl⟩ idleCycleState_in_position

end PALMS
